import Mathlib

/-!
Verification of the perspective-geometry capture and comparison pipeline of the
Art Fundamentals Tutor repository.

The development shallowly embeds the relevant TypeScript source:

* the projective-geometry helper getVanishingPoint
  (src/unnamed/part_004, lines 10-33, identical copy in
  src/components/CritiqueZone.tsx lines 13-24);
* the capture effect of SceneContent (src/unnamed/part_004, lines 392-604);
* the Gemini service client (src/src/services/geminiService.ts), which holds
  three evolutionary snapshots of the same module separated by document
  markers; the embedding covers the response-handling and model-fallback
  control flow of the second snapshot (compareDrawings lines 492-503,
  compareEdges lines 389-394) and the third snapshot (isRateLimitError
  lines 574-577, scanImageStructure lines 708-728, compareDrawings
  lines 886-949);
* the runComparison handler of the critique session component
  (src/src/components/CritiqueZone.tsx, second snapshot, lines 588-626).

Numbers that the source handles as JavaScript floating point are embedded as
exact rationals.  Calls whose outcome is decided outside the embedded code
(network requests, JSON.parse, canvas 2D contexts) are passed in as explicit
outcome-valued environments, so every theorem quantifies over all behaviours
of those collaborators.
-/

/-! ## JavaScript string and error primitives -/

/-- Character-list test used to embed the JavaScript String.prototype test
for one list being a leading segment of another. -/
def leadsList : List Char → List Char → Bool
  | [], _ => true
  | _ :: _, [] => false
  | a :: as, b :: bs => a == b && leadsList as bs

/-- Substring occurrence on character lists. -/
def hasSubList (pat : List Char) : List Char → Bool
  | [] => pat.isEmpty
  | c :: rest => leadsList pat (c :: rest) || hasSubList pat rest

/-- Embedding of the JavaScript call text.includes(pat). -/
def containsSub (s pat : String) : Bool :=
  hasSubList pat.data s.data

/-- Optional-chaining variant: embeds value?.includes(pat), where an absent
value yields a falsy (false) result. -/
def containsSubO (o : Option String) (pat : String) : Bool :=
  match o with
  | some s => containsSub s pat
  | none => false

/-- A JavaScript exception value as observed by the catch blocks of the
source: whether it is an instanceof Error, and its (optionally present)
name and message fields. -/
structure JsError where
  isErrorInstance : Bool
  name : Option String
  message : Option String
deriving DecidableEq

/-- Embedding of the JavaScript idiom value || defaultValue for string-typed
fields: both an absent field and the empty string are falsy. -/
def jsOrString (o : Option String) (dflt : String) : String :=
  match o with
  | some s => if s = "" then dflt else s
  | none => dflt

/-! ## Projective geometry engine (src/unnamed/part_004 lines 10-33)

The source rotates an axis direction about the world Y axis by the cube
rotation angle using THREE.Vector3.applyAxisAngle, which only uses the sine
and cosine of the angle; the embedding therefore takes the sine and cosine
of the rotation as rational parameters. -/

/-- Fixed far depth of the horizon plane (source constant HORIZON_Z). -/
def HORIZON_Z : ℚ := -100

/-- Rational 3D vector mirroring THREE.Vector3. -/
structure Vec3q where
  x : ℚ
  y : ℚ
  z : ℚ
deriving DecidableEq

/-- Rotation of a vector about the world Y axis (0,1,0), given the sine and
cosine of the angle; this is THREE.Vector3.applyAxisAngle specialised to the
Y axis exactly as every call site of the source uses it. -/
def applyAxisAngleY (sinR cosR : ℚ) (v : Vec3q) : Vec3q :=
  ⟨cosR * v.x + sinR * v.z, v.y, -sinR * v.x + cosR * v.z⟩

/-- Componentwise negation, mirroring THREE.Vector3.negate. -/
def vneg (v : Vec3q) : Vec3q := ⟨-v.x, -v.y, -v.z⟩

/-- The two axis arguments accepted by getVanishingPoint. -/
inductive VAxis where
  | x
  | z
deriving DecidableEq

/-- Source line 15: new THREE.Vector3(axis === x ? 1 : 0, 0, axis === z ? 1 : 0). -/
def axisDir : VAxis → Vec3q
  | VAxis.x => ⟨1, 0, 0⟩
  | VAxis.z => ⟨0, 0, 1⟩

/-- A THREE.Camera as far as its observable state matters here: a position
plus orientation state (Euler rotation and up vector).  getVanishingPoint
receives the whole camera object. -/
structure CameraState where
  position : Vec3q
  rotationEuler : Vec3q
  up : Vec3q
deriving DecidableEq

/-- Embedding of getVanishingPoint (src/unnamed/part_004 lines 14-33):
rotate the chosen axis direction by the cube rotation, orient it away from
the camera (negative Z component), return none when the direction is within
epsilon 0.001 of parallel to the horizon plane, and otherwise intersect the
ray from the camera position with the plane Z = HORIZON_Z. -/
def getVanishingPoint (camera : CameraState) (sinR cosR : ℚ) (axis : VAxis) :
    Option Vec3q :=
  let dir1 := applyAxisAngleY sinR cosR (axisDir axis)
  let dir := if dir1.z > 0 then vneg dir1 else dir1
  if |dir.z| < 1 / 1000 then none
  else
    let t := (HORIZON_Z - camera.position.z) / dir.z
    some ⟨camera.position.x + dir.x * t, camera.position.y + dir.y * t, HORIZON_Z⟩

/-! ## Scene capture effect (src/unnamed/part_004 lines 392-604)

The effect mutates three pieces of shared render state (scene background,
cube material visibility, renderer pixel ratio), performs three render
passes each followed by a getCroppedImage readback, then restores the saved
state and invokes the onCapture callback only when all three readbacks
produced an image.  Each getCroppedImage call can throw (drawImage on a lost
context), return null (2D context unavailable, source line 414), or return a
data URL; that outcome is supplied per call by an environment. -/

/-- Shared render state borrowed by the capture effect: scene.background
(none is a null, transparent background), cube material visibility, and the
renderer pixel ratio. -/
structure RenderState where
  background : Option String
  materialVisible : Bool
  pixelRatio : ℚ
deriving DecidableEq

/-- Outcome of one getCroppedImage call. -/
inductive CropOutcome where
  | throws
  | nullCtx
  | ok (img : String)
deriving DecidableEq

/-- What the capture effect produced: an escaped exception, an exit with no
onCapture call, or the three images handed to onCapture (solid, wireframe
overlay, analysis wireframe). -/
inductive CaptureOutcome where
  | threw
  | noCallback
  | captured (solid wireframe analysis : String)
deriving DecidableEq

/-- Embedding of the capture effect body.  Mirrors the source order: save
originalInfo, boost pixel ratio to 3, pass 1 (white background, solid) and
its readback, pass 2 (white background, material hidden) and its readback,
pass 3 (transparent background) and its readback, then the restore block
(lines 536-538) and the guarded onCapture call (lines 600-602).  An
exception from a readback aborts the effect at that point with the render
state as it then stands. -/
def captureEffect (env : Fin 3 → CropOutcome) (s0 : RenderState) :
    RenderState × CaptureOutcome :=
  let s2 : RenderState := { s0 with pixelRatio := 3, background := some "#ffffff" }
  match env 0 with
  | CropOutcome.throws => (s2, CaptureOutcome.threw)
  | crop1 =>
    let s3 : RenderState := { s2 with background := some "#ffffff", materialVisible := false }
    match env 1 with
    | CropOutcome.throws => (s3, CaptureOutcome.threw)
    | crop2 =>
      let s4 : RenderState := { s3 with background := none }
      match env 2 with
      | CropOutcome.throws => (s4, CaptureOutcome.threw)
      | crop3 =>
        let s5 : RenderState :=
          { s4 with materialVisible := true, background := s0.background,
                    pixelRatio := s0.pixelRatio }
        match crop1, crop2, crop3 with
        | CropOutcome.ok solid, CropOutcome.ok analysis, CropOutcome.ok wire =>
          (s5, CaptureOutcome.captured solid wire analysis)
        | _, _, _ => (s5, CaptureOutcome.noCallback)

/-! ## Comparison protocol client (src/src/services/geminiService.ts) -/

/-- Primary model name (constant MODEL_NAME). -/
def MODEL_NAME : String := "gemini-3-flash-preview"

/-- Fallback model name (constant FALLBACK_MODEL_NAME, third snapshot). -/
def FALLBACK_MODEL_NAME : String := "gemini-2.5-flash"

/-- Ordered fallback list, source line 887: [MODEL_NAME, FALLBACK_MODEL_NAME]. -/
def modelsToTry : List String := [ MODEL_NAME, FALLBACK_MODEL_NAME ]

/-- Embedding of isRateLimitError (lines 574-577): the error is an
instanceof Error and its message contains the marker 429. -/
def isRateLimitError (e : JsError) : Bool :=
  e.isErrorInstance && containsSub (e.message.getD "") "429"

/-- A line segment of the wire format: start and end points, each a pair of
normalised coordinates. -/
structure Seg where
  start : ℚ × ℚ
  stop : ℚ × ℚ
deriving DecidableEq

/-- Edge classes of the second-snapshot wire format. -/
inductive EdgeType where
  | left
  | right
  | vertical
deriving DecidableEq

/-- A typed edge of the second-snapshot wire format. -/
structure EdgeV2 where
  start : ℚ × ℚ
  stop : ℚ × ℚ
  type : EdgeType
deriving DecidableEq

/-- Fields of a successfully parsed JSON body for the second-snapshot
compareDrawings; every field may be absent. -/
structure ParsedCompareV2 where
  grade : Option String
  feedback : Option String
  referenceEdges : Option (List EdgeV2)
  userEdges : Option (List EdgeV2)
deriving DecidableEq

/-- Result surfaced by the second-snapshot compareDrawings. -/
structure CompareResultV2 where
  grade : String
  feedback : String
  referenceEdges : List EdgeV2
  userEdges : List EdgeV2
deriving DecidableEq

/-- Response handling of the second-snapshot compareDrawings (lines
492-503): on a parsed body, default a falsy grade to C, a falsy feedback to
the empty string, and absent edge arrays to empty arrays; on a JSON.parse
failure return grade C with the raw text as feedback and empty edge lists. -/
def compareDrawingsHandleResponse (text : String) (p : Option ParsedCompareV2) :
    CompareResultV2 :=
  match p with
  | some d =>
    ⟨jsOrString d.grade "C", jsOrString d.feedback "",
      d.referenceEdges.getD [], d.userEdges.getD []⟩
  | none => ⟨"C", text, [], []⟩

/-- Fields of a parsed body for compareEdges. -/
structure ParsedGrade where
  grade : Option String
  feedback : Option String
deriving DecidableEq

/-- Response handling of compareEdges (lines 389-394): grade and feedback
with the same falsy defaults; on a parse failure grade C with the raw text. -/
def compareEdgesHandleResponse (text : String) (p : Option ParsedGrade) :
    String × String :=
  match p with
  | some d => (jsOrString d.grade "C", jsOrString d.feedback "")
  | none => ("C", text)

/-- Fields of a successfully parsed JSON body for the third-snapshot
compareDrawings. -/
structure ParsedV3 where
  grade : Option String
  feedback : Option String
  leftSet : Option (List Seg)
  rightSet : Option (List Seg)
  verticalSet : Option (List Seg)
  refLeftSet : Option (List Seg)
  refRightSet : Option (List Seg)
  refVerticalSet : Option (List Seg)
  thoughtProcess : Option String
deriving DecidableEq

/-- Result surfaced by the third-snapshot compareDrawings: the parsed object
with only its grade defaulted, so every other field keeps its wire value
(possibly absent). -/
structure ResultV3 where
  grade : String
  feedback : Option String
  leftSet : Option (List Seg)
  rightSet : Option (List Seg)
  verticalSet : Option (List Seg)
  refLeftSet : Option (List Seg)
  refRightSet : Option (List Seg)
  refVerticalSet : Option (List Seg)
  thoughtProcess : Option String
deriving DecidableEq

/-- Outcome of one model attempt of the third-snapshot compareDrawings: the
request threw, or a response body text arrived together with its JSON.parse
outcome (none when the text is not valid JSON). -/
inductive AttemptV3 where
  | throws (e : JsError)
  | body (text : String) (parsed : Option ParsedV3)
deriving DecidableEq

/-- Typed failure result built at lines 915-917 and 930-932 when the body is
not valid JSON: grade F, the raw body as feedback, empty edge sets. -/
def parseFailureResult (text : String) : ResultV3 :=
  ⟨"F", some text, some [], some [], some [], some [], some [], some [], none⟩

/-- Result returned at line 944 once the fallback model has also failed. -/
def exhaustedFailureResult : ResultV3 :=
  ⟨"F", some "Failed to compare images. Please try again later.",
    some [], some [], some [], some [], some [], some [], none⟩

/-- Result returned at line 949 should the loop fall through. -/
def loopFallthroughResult : ResultV3 :=
  ⟨"F", some "Failed to compare images. Please try again.",
    some [], some [], some [], some [], some [], some [], none⟩

/-- Handling of a received body (lines 925-933): on valid JSON, default a
falsy grade to C and return the data unchanged; on invalid JSON return the
typed parse-failure result. -/
def handleParsedBody (text : String) (p : Option ParsedV3) : ResultV3 :=
  match p with
  | some d =>
    ⟨jsOrString d.grade "C", d.feedback, d.leftSet, d.rightSet, d.verticalSet,
      d.refLeftSet, d.refRightSet, d.refVerticalSet, d.thoughtProcess⟩
  | none => parseFailureResult text

/-- The model loop of the third-snapshot compareDrawings (lines 889-947):
walk the fallback list; a received body is handled in place; a thrown error
moves on to the next model when it is a rate-limit error on a non-final
model, returns the exhausted failure once the final model has failed, and
otherwise also falls through to the next model. -/
def tryModels (env : String → AttemptV3) : List String → ResultV3
  | [] => loopFallthroughResult
  | m :: rest =>
    match env m with
    | AttemptV3.body text parsed => handleParsedBody text parsed
    | AttemptV3.throws e =>
      if isRateLimitError e && !(m == FALLBACK_MODEL_NAME) then tryModels env rest
      else if m == FALLBACK_MODEL_NAME then exhaustedFailureResult
      else tryModels env rest

/-- Third-snapshot compareDrawings as a function of the per-model attempt
outcomes for its one request payload.  It is total: no exception escapes. -/
def compareDrawings (env : String → AttemptV3) : ResultV3 :=
  tryModels env modelsToTry

/-- Fields of a parsed body for scanImageStructure. -/
structure ScanParsed where
  leftSet : Option (List Seg)
  rightSet : Option (List Seg)
  verticalSet : Option (List Seg)
deriving DecidableEq

/-- Result of scanImageStructure. -/
structure GeometricScanResult where
  leftSet : List Seg
  rightSet : List Seg
  verticalSet : List Seg
deriving DecidableEq

/-- Outcome of one model attempt of scanImageStructure. -/
inductive ScanAttempt where
  | throws (e : JsError)
  | body (text : String) (parsed : Option ScanParsed)
deriving DecidableEq

/-- The SyntaxError thrown by JSON.parse on a body that is not valid JSON
(modelled as one fixed error value). -/
def jsonSyntaxError : JsError :=
  ⟨true, some "SyntaxError", some "Unexpected token in JSON"⟩

/-- The model loop of scanImageStructure (lines 710-727): a parsed body
returns the three sets with absent ones defaulted to empty; any exception in
an attempt, including the JSON.parse SyntaxError on an invalid body, moves
on to the next model, except on the fallback model where it is rethrown
(line 725).  Line 728 returns empty sets should the loop fall through. -/
def scanTryModels (env : String → ScanAttempt) :
    List String → Except JsError GeometricScanResult
  | [] => Except.ok ⟨[], [], []⟩
  | m :: rest =>
    match env m with
    | ScanAttempt.body _ (some d) =>
      Except.ok ⟨d.leftSet.getD [], d.rightSet.getD [], d.verticalSet.getD []⟩
    | ScanAttempt.body _ none =>
      if m == FALLBACK_MODEL_NAME then Except.error jsonSyntaxError
      else scanTryModels env rest
    | ScanAttempt.throws e =>
      if m == FALLBACK_MODEL_NAME then Except.error e
      else scanTryModels env rest

/-- scanImageStructure (lines 660-729) as a function of the per-model
attempt outcomes; an Except.error is an exception escaping its boundary. -/
def scanImageStructure (env : String → ScanAttempt) :
    Except JsError GeometricScanResult :=
  scanTryModels env modelsToTry

/-! ## Critique session state machine
(src/src/components/CritiqueZone.tsx, second snapshot, lines 588-626) -/

/-- The step states of the session component. -/
inductive UiStep where
  | pose
  | draw
  | crop
  | result
deriving DecidableEq

/-- The three detected line sets held in component state. -/
structure LineSets1 where
  leftSet : List Seg
  rightSet : List Seg
  verticalSet : List Seg
deriving DecidableEq

/-- Error taxonomy of the catch block at lines 609-619. -/
inductive ErrKind where
  | network
  | timeout
  | parseKind
  | unknownKind
deriving DecidableEq

/-- A user-displayable error record as stored in analysisError. -/
structure ErrorInfo where
  kind : ErrKind
  message : String
deriving DecidableEq

/-- Result shape consumed from compareDrawings by this component: feedback
plus three optionally present line sets. -/
structure CompareResult1 where
  feedback : Option String
  leftSet : Option (List Seg)
  rightSet : Option (List Seg)
  verticalSet : Option (List Seg)

/-- Outcome of the awaited compareDrawings call inside runComparison. -/
inductive CompareOutcome where
  | throws (e : JsError)
  | returns (r : CompareResult1)

/-- Component state touched by runComparison and the retry affordance. -/
structure SessionSt where
  step : UiStep
  referenceImage : Option String
  referenceLines : Option String
  userDrawing : Option String
  analysis : Option String
  lineSets : LineSets1
  isAnalyzing : Bool
  analysisError : Option ErrorInfo
  hasSaved : Bool

/-- The error classification of lines 610-619: message containing network or
fetch, then timeout or an AbortError name, then JSON or parse, then the
unknown bucket; each with its fixed user-displayable message. -/
def classifyError (e : JsError) : ErrorInfo :=
  if containsSubO e.message "network" || containsSubO e.message "fetch" then
    ⟨ErrKind.network, "Network error. Please check your connection and try again."⟩
  else if containsSubO e.message "timeout" || e.name == some "AbortError" then
    ⟨ErrKind.timeout, "Request timed out. The AI is taking too long to respond."⟩
  else if containsSubO e.message "JSON" || containsSubO e.message "parse" then
    ⟨ErrKind.parseKind, "Failed to parse AI response. Please try again."⟩
  else
    ⟨ErrKind.unknownKind, "Something went wrong. Please try again."⟩

/-- The guard at line 596: a falsy feedback (absent or empty) or a feedback
containing the failure marker string is treated as a parse failure. -/
def feedbackFailed (r : CompareResult1) : Bool :=
  match r.feedback with
  | none => true
  | some f => f == "" || containsSub f "Failed to compare"

/-- What one runComparison call produced: the new component state, the pair
of images sent to compareDrawings (none when the guard at line 589 returned
early), and how many times recordCritique was invoked. -/
structure RunOutput where
  state : SessionSt
  request : Option (String × String)
  critiqueCalls : Nat

/-- Embedding of runComparison (lines 588-626).  Guard on both images being
present; clear the error and saved flags and set the analyzing flag; then
either surface the result (storing feedback and line sets, invoking
recordCritique once, entering the result step) or classify the failure into
analysisError, clearing the stale analysis and line sets; the finally block
clears the analyzing flag on every path. -/
def runComparison (s : SessionSt) (o : CompareOutcome) : RunOutput :=
  match s.referenceImage, s.userDrawing with
  | some ref, some usr =>
    let s1 := { s with isAnalyzing := true, analysisError := none, hasSaved := false }
    (match o with
     | CompareOutcome.returns r =>
       if feedbackFailed r then
         ⟨{ s1 with
              analysisError := some ⟨ErrKind.parseKind,
                "Could not parse the AI response. Please try again."⟩,
              isAnalyzing := false },
           some (ref, usr), 0⟩
       else
         ⟨{ s1 with
              analysis := r.feedback,
              lineSets := ⟨r.leftSet.getD [], r.rightSet.getD [], r.verticalSet.getD []⟩,
              step := UiStep.result,
              isAnalyzing := false },
           some (ref, usr), 1⟩
     | CompareOutcome.throws e =>
       ⟨{ s1 with
            analysisError := some (classifyError e),
            analysis := none,
            lineSets := ⟨[], [], []⟩,
            isAnalyzing := false },
         some (ref, usr), 0⟩)
  | _, _ => ⟨s, none, 0⟩

/-- An outcome on which runComparison surfaces an error. -/
def failedOutcome : CompareOutcome → Bool
  | CompareOutcome.throws _ => true
  | CompareOutcome.returns r => feedbackFailed r

/-- An outcome on which runComparison surfaces a successful analysis. -/
def successOutcome : CompareOutcome → Bool
  | CompareOutcome.throws _ => false
  | CompareOutcome.returns r => !feedbackFailed r

/-! ## Concrete inputs used by witnesses and counterexamples -/

/-- Camera of the locked one-point preset at distance 15: position
(0, height 0, 15), default orientation (see CameraController, which calls
camera.position.set(0, height, distance) and lookAt the origin). -/
def cam1ptD15 : CameraState := ⟨⟨0, 0, 15⟩, ⟨0, 0, 0⟩, ⟨0, 1, 0⟩⟩

/-- The same camera position with a different orientation state. -/
def cam1ptD15rotated : CameraState := ⟨⟨0, 0, 15⟩, ⟨0, 1 / 2, 0⟩, ⟨0, 1, 0⟩⟩

/-- Interactive render state before a capture: transparent background,
visible cube material, pixel ratio 1. -/
def renderState0 : RenderState := ⟨none, true, 1⟩

/-- Readback environment in which the second getCroppedImage call throws. -/
def cropEnvThrow2 : Fin 3 → CropOutcome :=
  fun i => if i = 1 then CropOutcome.throws else CropOutcome.ok "img"

/-- Readback environment in which every 2D context is unavailable, so every
getCroppedImage call returns null. -/
def cropEnvNoCtx : Fin 3 → CropOutcome := fun _ => CropOutcome.nullCtx

/-- A rate-limit rejection as produced by the backing SDK. -/
def rateLimit429 : JsError := ⟨true, some "Error", some "429 Too Many Requests"⟩

/-- Environment in which every model attempt is rate limited. -/
def envBothRateLimited : String → AttemptV3 := fun _ => AttemptV3.throws rateLimit429

/-- Environment in which the primary model answers with a body that is not
valid JSON (and the fallback is never consulted). -/
def envPrimaryBadJson : String → AttemptV3 :=
  fun _ => AttemptV3.body "detected a cube with slanted edges" none

/-- Scan environment in which both models answer with invalid JSON. -/
def envScanBothInvalid : String → ScanAttempt :=
  fun _ => ScanAttempt.body "this is not json" none

/-- A parsed scan body with three empty sets present. -/
def scanOkParsed : ScanParsed := ⟨some [], some [], some []⟩

/-- Scan environment: invalid JSON from the primary model, a valid body from
the fallback model. -/
def envScanRetryOk : String → ScanAttempt :=
  fun m => if m == MODEL_NAME then ScanAttempt.body "bad body" none
           else ScanAttempt.body "ok body" (some scanOkParsed)

/-- An edge of the second-snapshot wire format at a given abscissa. -/
def edgeAt (t : EdgeType) (n : ℚ) : EdgeV2 := ⟨(n, 0), (n, 10), t⟩

/-- Nine reference edges: four left, three right, two vertical. -/
def edges432 : List EdgeV2 :=
  [ edgeAt EdgeType.left 1, edgeAt EdgeType.left 2, edgeAt EdgeType.left 3,
    edgeAt EdgeType.left 4, edgeAt EdgeType.right 5, edgeAt EdgeType.right 6,
    edgeAt EdgeType.right 7, edgeAt EdgeType.vertical 8, edgeAt EdgeType.vertical 9 ]

/-- A well-formed parsed comparison body with no grade field. -/
def parsedNoGrade : ParsedCompareV2 :=
  ⟨none, some "Nice convergence overall", some edges432, some []⟩

/-- Session state on the draw step, with a captured reference image and an
uploaded user drawing in place. -/
def sessionDraw : SessionSt :=
  ⟨UiStep.draw, some "refPng", some "linesPng", some "userPng", none,
    ⟨[], [], []⟩, false, none, false⟩

/-- A timeout rejection from the comparison call. -/
def timeoutJsError : JsError := ⟨true, some "Error", some "timeout exceeded"⟩

/-- A successful comparison result with a genuine feedback text. -/
def okCompareResult1 : CompareResult1 :=
  ⟨some "Great convergence", some [], some [], some []⟩

/-! ## Helper lemmas -/

/-- The two model names differ. -/
theorem modelName_beq_fallback : (MODEL_NAME == FALLBACK_MODEL_NAME) = false := by
  decide

/-- Unfolding of the model loop at the primary model. -/
theorem tryModels_cons (env : String → AttemptV3) (m : String) (rest : List String) :
    tryModels env (m :: rest) =
      match env m with
      | AttemptV3.body text parsed => handleParsedBody text parsed
      | AttemptV3.throws e =>
        if isRateLimitError e && !(m == FALLBACK_MODEL_NAME) then tryModels env rest
        else if m == FALLBACK_MODEL_NAME then exhaustedFailureResult
        else tryModels env rest := by
  rfl

/-- Unfolding of the scan model loop. -/
theorem scanTryModels_cons (env : String → ScanAttempt) (m : String) (rest : List String) :
    scanTryModels env (m :: rest) =
      match env m with
      | ScanAttempt.body _ (some d) =>
        Except.ok ⟨d.leftSet.getD [], d.rightSet.getD [], d.verticalSet.getD []⟩
      | ScanAttempt.body _ none =>
        if m == FALLBACK_MODEL_NAME then Except.error jsonSyntaxError
        else scanTryModels env rest
      | ScanAttempt.throws e =>
        if m == FALLBACK_MODEL_NAME then Except.error e
        else scanTryModels env rest := by
  rfl

/-! ## Claim theorems -/

/-- C1: for every comparison call, a rate-limited request against the
primary model is retried against the fallback model (the result is that of
the remaining fallback list); a failure is surfaced only once the last model
has also failed; when rate limiting continues on the fallback, the exhausted
failure result is returned; and whenever the primary model answers, the
result is determined by that answer alone, so every call starts at the
primary model. -/
theorem claim1_rate_limit_fallback_policy :
    (∀ (env : String → AttemptV3) (e : JsError),
        env MODEL_NAME = AttemptV3.throws e → isRateLimitError e = true →
        compareDrawings env = tryModels env [ FALLBACK_MODEL_NAME ]) ∧
    (∀ (env : String → AttemptV3) (e1 e2 : JsError),
        env MODEL_NAME = AttemptV3.throws e1 → isRateLimitError e1 = true →
        env FALLBACK_MODEL_NAME = AttemptV3.throws e2 →
        compareDrawings env = exhaustedFailureResult) ∧
    (∀ (env : String → AttemptV3) (e : JsError) (t : String) (p : Option ParsedV3),
        env MODEL_NAME = AttemptV3.throws e → isRateLimitError e = true →
        env FALLBACK_MODEL_NAME = AttemptV3.body t p →
        compareDrawings env = handleParsedBody t p) ∧
    (∀ (env : String → AttemptV3) (t : String) (p : Option ParsedV3),
        env MODEL_NAME = AttemptV3.body t p →
        compareDrawings env = handleParsedBody t p) := by
  refine ⟨?_, ?_, ?_, ?_⟩
  · intro env e h hrl
    rw [compareDrawings, modelsToTry, tryModels_cons, h]
    simp [hrl, modelName_beq_fallback]
  · intro env e1 e2 h1 hrl h2
    rw [compareDrawings, modelsToTry, tryModels_cons, h1]
    simp only [hrl, modelName_beq_fallback, Bool.not_false, Bool.and_self, if_true]
    rw [tryModels_cons, h2]
    simp
  · intro env e t p h1 hrl h2
    rw [compareDrawings, modelsToTry, tryModels_cons, h1]
    simp only [hrl, modelName_beq_fallback, Bool.not_false, Bool.and_self, if_true]
    rw [tryModels_cons, h2]
  · intro env t p h
    rw [compareDrawings, modelsToTry, tryModels_cons, h]

/-- C1 witness: with both models rate limited, the fallback is consulted and
the exhausted failure is returned only after it also fails. -/
theorem claim1_rate_limit_fallback_policy_witness :
    envBothRateLimited MODEL_NAME = AttemptV3.throws rateLimit429 ∧
    isRateLimitError rateLimit429 = true ∧
    envBothRateLimited FALLBACK_MODEL_NAME = AttemptV3.throws rateLimit429 ∧
    compareDrawings envBothRateLimited = exhaustedFailureResult :=
  ⟨rfl, by decide, rfl,
    claim1_rate_limit_fallback_policy.2.1 envBothRateLimited rateLimit429 rateLimit429
      rfl (by decide) rfl⟩

/-- C2 counterexample: a response body that is not valid JSON makes
scanImageStructure rethrow the JSON.parse exception once the fallback model
has also produced an invalid body, so the comparison client does let an
exception propagate past its boundary instead of returning a typed
parse-failure result. -/
theorem claim2_counterexample_scan_exception :
    scanImageStructure envScanBothInvalid = Except.error jsonSyntaxError := by
  rfl

/-- C2 amended: compareDrawings never throws and turns every body that is
not valid JSON into the typed failure result carrying the raw body as its
message, while scanImageStructure first retries the fallback model on a
parse failure and propagates the parse exception only when the fallback
body is also invalid. -/
theorem claim2_amended_typed_parse_failure :
    (∀ (env : String → AttemptV3) (t : String),
        env MODEL_NAME = AttemptV3.body t none →
        compareDrawings env = parseFailureResult t) ∧
    (∀ (envS : String → ScanAttempt) (t t2 : String) (d : ScanParsed),
        envS MODEL_NAME = ScanAttempt.body t none →
        envS FALLBACK_MODEL_NAME = ScanAttempt.body t2 (some d) →
        scanImageStructure envS =
          Except.ok ⟨d.leftSet.getD [], d.rightSet.getD [], d.verticalSet.getD []⟩) ∧
    (∀ (envS : String → ScanAttempt) (t t2 : String),
        envS MODEL_NAME = ScanAttempt.body t none →
        envS FALLBACK_MODEL_NAME = ScanAttempt.body t2 none →
        scanImageStructure envS = Except.error jsonSyntaxError) := by
  refine ⟨?_, ?_, ?_⟩
  · intro env t h
    rw [compareDrawings, modelsToTry, tryModels_cons, h]
    rfl
  · intro envS t t2 d h1 h2
    rw [scanImageStructure, modelsToTry, scanTryModels_cons, h1]
    simp only [modelName_beq_fallback, Bool.false_eq_true, if_false]
    rw [scanTryModels_cons, h2]
  · intro envS t t2 h1 h2
    rw [scanImageStructure, modelsToTry, scanTryModels_cons, h1]
    simp only [modelName_beq_fallback, Bool.false_eq_true, if_false]
    rw [scanTryModels_cons, h2]
    simp

/-- C2 amended witness: a non-JSON primary body yields the typed failure
from compareDrawings, and scanImageStructure recovers through the fallback
model. -/
theorem claim2_amended_typed_parse_failure_witness :
    envPrimaryBadJson MODEL_NAME =
      AttemptV3.body "detected a cube with slanted edges" none ∧
    compareDrawings envPrimaryBadJson =
      parseFailureResult "detected a cube with slanted edges" ∧
    envScanRetryOk MODEL_NAME = ScanAttempt.body "bad body" none ∧
    envScanRetryOk FALLBACK_MODEL_NAME = ScanAttempt.body "ok body" (some scanOkParsed) ∧
    scanImageStructure envScanRetryOk = Except.ok ⟨[], [], []⟩ :=
  ⟨rfl,
    claim2_amended_typed_parse_failure.1 envPrimaryBadJson
      "detected a cube with slanted edges" rfl,
    by decide, by decide,
    claim2_amended_typed_parse_failure.2.1 envScanRetryOk "bad body" "ok body"
      scanOkParsed (by decide) (by decide)⟩

/-- C3: for every well-formed response body, the surfaced referenceEdges and
userEdges lists are exactly the lists the service returned (hence with
exactly the returned per-class counts), a missing grade defaults to C, and a
present non-empty grade is passed through; compareEdges defaults a missing
grade to C the same way. -/
theorem claim3_counts_and_grade_default :
    (∀ (text : String) (d : ParsedCompareV2) (l : List EdgeV2),
        d.referenceEdges = some l →
        (compareDrawingsHandleResponse text (some d)).referenceEdges = l) ∧
    (∀ (text : String) (d : ParsedCompareV2) (l : List EdgeV2),
        d.userEdges = some l →
        (compareDrawingsHandleResponse text (some d)).userEdges = l) ∧
    (∀ (text : String) (d : ParsedCompareV2),
        d.grade = none → (compareDrawingsHandleResponse text (some d)).grade = "C") ∧
    (∀ (text : String) (d : ParsedCompareV2) (g : String),
        d.grade = some g → g ≠ "" →
        (compareDrawingsHandleResponse text (some d)).grade = g) ∧
    (∀ (text : String) (p : ParsedGrade),
        p.grade = none → (compareEdgesHandleResponse text (some p)).1 = "C") := by
  refine ⟨?_, ?_, ?_, ?_, ?_⟩
  · intro text d l h
    simp [compareDrawingsHandleResponse, h]
  · intro text d l h
    simp [compareDrawingsHandleResponse, h]
  · intro text d h
    simp [compareDrawingsHandleResponse, jsOrString, h]
  · intro text d g h hne
    simp [compareDrawingsHandleResponse, jsOrString, h, hne]
  · intro text p h
    simp [compareEdgesHandleResponse, jsOrString, h]

/-- C3 witness: a response with four left, three right and two vertical
reference edges and no grade surfaces exactly those edges with grade C. -/
theorem claim3_counts_and_grade_default_witness :
    parsedNoGrade.referenceEdges = some edges432 ∧
    parsedNoGrade.grade = none ∧
    (compareDrawingsHandleResponse "" (some parsedNoGrade)).referenceEdges = edges432 ∧
    (compareDrawingsHandleResponse "" (some parsedNoGrade)).grade = "C" ∧
    edges432.countP (fun e => e.type == EdgeType.left) = 4 ∧
    edges432.countP (fun e => e.type == EdgeType.right) = 3 ∧
    edges432.countP (fun e => e.type == EdgeType.vertical) = 2 :=
  ⟨rfl, rfl,
    claim3_counts_and_grade_default.1 "" parsedNoGrade edges432 rfl,
    claim3_counts_and_grade_default.2.2.1 "" parsedNoGrade rfl,
    by decide, by decide, by decide⟩

/-- C4 counterexample: at camera distance 15 and a cube rotation with sine
3/5 and cosine 4/5 (so with tangent 3/4), the computed depth-axis vanishing
point has world X equal to -345/4 = -(15 + 100) * (3/4), which differs from
the claimed -D * tan = -15 * (3/4) = -45/4. -/
theorem claim4_counterexample_depth_vp_x :
    (getVanishingPoint cam1ptD15 (3 / 5) (4 / 5) VAxis.z).map Vec3q.x =
      some (-345 / 4) ∧
    (-345 / 4 : ℚ) ≠ -15 * ((3 / 5 : ℚ) / (4 / 5)) := by
  constructor
  · have habs : |(4 / 5 : ℚ)| = 4 / 5 := abs_of_pos (by norm_num)
    norm_num [getVanishingPoint, applyAxisAngleY, axisDir, vneg, HORIZON_Z, cam1ptD15,
      habs]
  · norm_num

/-- C4 amended: for every camera of a locked preset (X position 0), every
distance D greater than 0 and every rotation with sine s and cosine c whose
depth component clears the parallel epsilon, the depth-axis vanishing point
is exactly (-(D - HORIZON_Z) * (s / c), camera height, HORIZON_Z): the world
Z is the horizon depth constant exactly, and the world X is
-(D + 100) * tan of the rotation, not -D * tan. -/
theorem claim4_amended_depth_vp_closed_form
    (cam : CameraState) (s c : ℚ)
    (hx : cam.position.x = 0) (hD : 0 < cam.position.z)
    (hsc : s ^ 2 + c ^ 2 = 1) (hpar : 1 / 1000 ≤ |c|) :
    getVanishingPoint cam s c VAxis.z =
      some ⟨-(cam.position.z - HORIZON_Z) * (s / c), cam.position.y, HORIZON_Z⟩ := by
  have hc : c ≠ 0 := by
    intro h
    rw [h] at hpar
    norm_num at hpar
  rw [getVanishingPoint]
  simp only [axisDir, applyAxisAngleY, vneg, mul_zero, mul_one, zero_add, add_zero,
    zero_mul, neg_zero, HORIZON_Z, hx]
  split_ifs with h1 h2 h3
  · exact absurd (by simpa [abs_neg] using h2) (not_lt.mpr hpar)
  · simp only [Option.some.injEq, Vec3q.mk.injEq, and_true, true_and]
    field_simp
    ring
  · exact absurd h3 (not_lt.mpr hpar)
  · simp only [Option.some.injEq, Vec3q.mk.injEq, and_true, true_and]
    field_simp
    ring

/-- C4 amended witness: the closed form evaluated at distance 15 with sine
3/5 and cosine 4/5. -/
theorem claim4_amended_depth_vp_closed_form_witness :
    cam1ptD15.position.x = 0 ∧ 0 < cam1ptD15.position.z ∧
    ((3 / 5 : ℚ)) ^ 2 + ((4 / 5 : ℚ)) ^ 2 = 1 ∧
    (1 / 1000 : ℚ) ≤ |(4 / 5 : ℚ)| ∧
    getVanishingPoint cam1ptD15 (3 / 5) (4 / 5) VAxis.z =
      some ⟨-(cam1ptD15.position.z - HORIZON_Z) * ((3 / 5) / (4 / 5)),
        cam1ptD15.position.y, HORIZON_Z⟩ :=
  ⟨rfl, by norm_num [cam1ptD15], by norm_num,
    by rw [abs_of_pos (by norm_num : (0 : ℚ) < 4 / 5)]; norm_num,
    claim4_amended_depth_vp_closed_form cam1ptD15 (3 / 5) (4 / 5) rfl
      (by norm_num [cam1ptD15]) (by norm_num)
      (by rw [abs_of_pos (by norm_num : (0 : ℚ) < 4 / 5)]; norm_num)⟩

/-- C5: whenever the rotated axis direction is within the parallel epsilon of
the horizon plane, getVanishingPoint returns none rather than dividing; in
particular at rotation zero with a locked one-point camera (X position 0)
the depth-axis vanishing point has world X exactly 0 and the width-axis
vanishing point is none. -/
theorem claim5_parallel_null_and_one_point :
    (∀ (cam : CameraState) (s c : ℚ) (a : VAxis),
        |(applyAxisAngleY s c (axisDir a)).z| < 1 / 1000 →
        getVanishingPoint cam s c a = none) ∧
    (∀ cam : CameraState, cam.position.x = 0 →
        (getVanishingPoint cam 0 1 VAxis.z).map Vec3q.x = some 0) ∧
    (∀ cam : CameraState, getVanishingPoint cam 0 1 VAxis.x = none) := by
  refine ⟨?_, ?_, ?_⟩
  · intro cam s c a hpar
    rw [getVanishingPoint]
    split_ifs with h1 h2
    · rfl
    · exact absurd (by simpa [vneg, abs_neg] using hpar) h2
    · rfl
  · intro cam hx
    norm_num [getVanishingPoint, applyAxisAngleY, axisDir, vneg, HORIZON_Z, hx]
  · intro cam
    norm_num [getVanishingPoint, applyAxisAngleY, axisDir, vneg]

/-- C5 witness: at rotation zero the width axis is parallel to the horizon
plane and its vanishing point is none, while the depth-axis vanishing point
of the distance-15 one-point camera has world X zero. -/
theorem claim5_parallel_null_and_one_point_witness :
    |(applyAxisAngleY 0 1 (axisDir VAxis.x)).z| < 1 / 1000 ∧
    getVanishingPoint cam1ptD15 0 1 VAxis.x = none ∧
    cam1ptD15.position.x = 0 ∧
    (getVanishingPoint cam1ptD15 0 1 VAxis.z).map Vec3q.x = some 0 :=
  ⟨by norm_num [applyAxisAngleY, axisDir],
    claim5_parallel_null_and_one_point.1 cam1ptD15 0 1 VAxis.x
      (by norm_num [applyAxisAngleY, axisDir]),
    rfl,
    claim5_parallel_null_and_one_point.2.1 cam1ptD15 rfl⟩

/-- C10: getVanishingPoint reads only the camera position, never its
orientation: two camera states with equal positions and arbitrary
orientations yield equal results for every rotation and axis. -/
theorem claim10_depends_only_on_position :
    ∀ (cam1 cam2 : CameraState) (s c : ℚ) (a : VAxis),
      cam1.position = cam2.position →
      getVanishingPoint cam1 s c a = getVanishingPoint cam2 s c a := by
  intro cam1 cam2 s c a h
  simp only [getVanishingPoint, h]

/-- C10 witness: two cameras sharing the position (0, 0, 15) with different
orientation state produce the same depth-axis vanishing point. -/
theorem claim10_depends_only_on_position_witness :
    cam1ptD15.position = cam1ptD15rotated.position ∧
    cam1ptD15.rotationEuler ≠ cam1ptD15rotated.rotationEuler ∧
    getVanishingPoint cam1ptD15 0 1 VAxis.z =
      getVanishingPoint cam1ptD15rotated 0 1 VAxis.z :=
  ⟨rfl, by norm_num [cam1ptD15, cam1ptD15rotated, Vec3q.mk.injEq],
    claim10_depends_only_on_position cam1ptD15 cam1ptD15rotated 0 1 VAxis.z rfl⟩

/-- C6 evaluation at the failing input: when the readback after the second
render pass throws, the capture effect exits with the scene background still
forced to white, the cube material still hidden and the pixel ratio still
boosted to 3 - none of the three pieces of borrowed render state is restored
to its pre-capture value, because the restore block only runs on the
straight-line path after the third pass. -/
theorem claim6_state_not_restored_on_crop_throw :
    captureEffect cropEnvThrow2 renderState0 =
      (⟨some "#ffffff", false, 3⟩, CaptureOutcome.threw) ∧
    (captureEffect cropEnvThrow2 renderState0).1 ≠ renderState0 := by
  constructor
  · rfl
  · intro h
    have hb := congrArg RenderState.materialVisible h
    simp [captureEffect, cropEnvThrow2, renderState0] at hb

/-- C7 evaluation at the failing input: when every 2D drawing context is
unavailable, every getCroppedImage call returns null, so the guard before
onCapture fails and the capture produces no result at all - there is no
fall back to the uncropped full-frame image. -/
theorem claim7_capture_dropped_on_null_context :
    captureEffect cropEnvNoCtx renderState0 = (renderState0, CaptureOutcome.noCallback) := by
  rfl

/-- Helper: whenever both images are present, runComparison sends exactly
those images, on every outcome. -/
theorem runComparison_request_of_images (s : SessionSt) (o : CompareOutcome)
    (ref usr : String) (h1 : s.referenceImage = some ref)
    (h2 : s.userDrawing = some usr) :
    (runComparison s o).request = some (ref, usr) := by
  cases o with
  | throws e => simp [runComparison, h1, h2]
  | returns r => by_cases hf : feedbackFailed r <;> simp [runComparison, h1, h2, hf]

/-- C8: after a failed comparison outcome the session keeps the captured
reference image and the uploaded user drawing unchanged while entering the
error state, and a retry - another runComparison on the resulting state -
sends exactly those stored images again, for every retry outcome. -/
theorem claim8_error_keeps_images_and_retry_reuses :
    ∀ (s : SessionSt) (o o2 : CompareOutcome) (ref usr : String),
      s.referenceImage = some ref → s.userDrawing = some usr →
      failedOutcome o = true →
      (runComparison s o).state.referenceImage = some ref ∧
      (runComparison s o).state.userDrawing = some usr ∧
      ((runComparison s o).state.analysisError).isSome = true ∧
      (runComparison (runComparison s o).state o2).request = some (ref, usr) := by
  intro s o o2 ref usr href husr hfail
  have himg : (runComparison s o).state.referenceImage = some ref ∧
      (runComparison s o).state.userDrawing = some usr ∧
      ((runComparison s o).state.analysisError).isSome = true := by
    cases o with
    | throws e => simp [runComparison, href, husr]
    | returns r =>
      have hf : feedbackFailed r = true := hfail
      simp [runComparison, href, husr, hf]
  exact ⟨himg.1, himg.2.1, himg.2.2,
    runComparison_request_of_images _ o2 ref usr himg.1 himg.2.1⟩

/-- C8 witness: after a timeout rejection, the draw-step session still holds
both images and the retried comparison reuses exactly those images. -/
theorem claim8_error_keeps_images_and_retry_reuses_witness :
    sessionDraw.referenceImage = some "refPng" ∧
    sessionDraw.userDrawing = some "userPng" ∧
    failedOutcome (CompareOutcome.throws timeoutJsError) = true ∧
    (runComparison sessionDraw
        (CompareOutcome.throws timeoutJsError)).state.referenceImage = some "refPng" ∧
    (runComparison sessionDraw
        (CompareOutcome.throws timeoutJsError)).state.userDrawing = some "userPng" ∧
    ((runComparison sessionDraw
        (CompareOutcome.throws timeoutJsError)).state.analysisError).isSome = true ∧
    (runComparison
        (runComparison sessionDraw (CompareOutcome.throws timeoutJsError)).state
        (CompareOutcome.returns okCompareResult1)).request =
      some ("refPng", "userPng") := by
  have h := claim8_error_keeps_images_and_retry_reuses sessionDraw
    (CompareOutcome.throws timeoutJsError) (CompareOutcome.returns okCompareResult1)
    "refPng" "userPng" rfl rfl rfl
  exact ⟨rfl, rfl, rfl, h.1, h.2.1, h.2.2.1, h.2.2.2⟩

/-- C9: one runComparison call never records more than one critique; it
records exactly one and enters the result step precisely when both images
are present and the comparison outcome is successful; and it records none on
every unsuccessful outcome. -/
theorem claim9_record_critique_exactly_once :
    ∀ (s : SessionSt) (o : CompareOutcome),
      (runComparison s o).critiqueCalls ≤ 1 ∧
      (s.referenceImage.isSome = true → s.userDrawing.isSome = true →
        successOutcome o = true →
        (runComparison s o).critiqueCalls = 1 ∧
        (runComparison s o).state.step = UiStep.result) ∧
      (successOutcome o = false → (runComparison s o).critiqueCalls = 0) := by
  intro s o
  refine ⟨?_, ?_, ?_⟩
  · rcases href : s.referenceImage with _ | ref
    · simp [runComparison, href]
    · rcases husr : s.userDrawing with _ | usr
      · simp [runComparison, href, husr]
      · cases o with
        | throws e => simp [runComparison, href, husr]
        | returns r =>
          by_cases hf : feedbackFailed r <;> simp [runComparison, href, husr, hf]
  · intro h1 h2 hs
    rcases href : s.referenceImage with _ | ref
    · rw [href] at h1
      simp at h1
    · rcases husr : s.userDrawing with _ | usr
      · rw [husr] at h2
        simp at h2
      · cases o with
        | throws e => simp [successOutcome] at hs
        | returns r =>
          have hf : feedbackFailed r = false := by simpa [successOutcome] using hs
          constructor <;> simp [runComparison, href, husr, hf]
  · intro hs
    rcases href : s.referenceImage with _ | ref
    · simp [runComparison, href]
    · rcases husr : s.userDrawing with _ | usr
      · simp [runComparison, href, husr]
      · cases o with
        | throws e => simp [runComparison, href, husr]
        | returns r =>
          have hf : feedbackFailed r = true := by simpa [successOutcome] using hs
          simp [runComparison, href, husr, hf]

/-- C9 witness: a successful outcome on the draw-step session records
exactly one critique and enters the result step. -/
theorem claim9_record_critique_exactly_once_witness :
    sessionDraw.referenceImage.isSome = true ∧
    sessionDraw.userDrawing.isSome = true ∧
    successOutcome (CompareOutcome.returns okCompareResult1) = true ∧
    (runComparison sessionDraw (CompareOutcome.returns okCompareResult1)).critiqueCalls = 1 ∧
    (runComparison sessionDraw (CompareOutcome.returns okCompareResult1)).state.step =
      UiStep.result :=
  ⟨rfl, rfl, by decide,
    ((claim9_record_critique_exactly_once sessionDraw
        (CompareOutcome.returns okCompareResult1)).2.1 rfl rfl (by decide)).1,
    ((claim9_record_critique_exactly_once sessionDraw
        (CompareOutcome.returns okCompareResult1)).2.1 rfl rfl (by decide)).2⟩
